import Mathlib

/-!
Shallow embedding of base_case_verification.py, a vehicle-routing
solution validator: a location registry mixing numeric depot keys with
string client keys, three interchangeable distance strategies backed by
a persistent string-keyed cache, and a five-rule route validator that
accumulates human-readable error strings.

Floating-point numbers of the source are modelled as real numbers; the
external geodesic library and the routing web service are modelled as
explicit function parameters; Python float formatting is modelled by an
explicit formatting parameter (its output never influences control
flow).
-/

namespace VRP

noncomputable section

/-- A key of the Python locations dict: it mixes int keys (numeric depot
ids) and string keys (the depot alias CDA and zero-padded client codes). -/
inductive PKey where
  | int (n : Int)
  | str (s : String)
deriving DecidableEq

/-- One value of the locations dict. -/
structure LocEntry where
  latitude : ℝ
  longitude : ℝ
  ltype : String
  demand : Option Int

/-- First-match association-list lookup, modelling Python dict indexing
for the append-only maps built by this program. -/
def pylookup {α β : Type} [DecidableEq α] : List (α × β) → α → Option β
  | [], _ => none
  | (k, v) :: rest, key => if k = key then some v else pylookup rest key

/-- The locations dict self.locations. -/
abbrev Locations := List (PKey × LocEntry)

/-- The distance cache self.distance_cache: a string-keyed map to
kilometre values. -/
abbrev Cache := List (String × ℝ)

/-- Degrees to radians, as math.radians. -/
def toRadians (d : ℝ) : ℝ := d * (Real.pi / 180)

/-- The haversine formula of haversine_distance, on raw coordinates:
a = sin^2(dlat/2) + cos lat1 * cos lat2 * sin^2(dlon/2),
c = 2 * asin(sqrt a), result 6371 * c. -/
def haversineCoords (lat1 lon1 lat2 lon2 : ℝ) : ℝ :=
  6371 * (2 * Real.arcsin (Real.sqrt (
    Real.sin ((toRadians lat2 - toRadians lat1) / 2) ^ 2 +
    Real.cos (toRadians lat1) * Real.cos (toRadians lat2) *
      Real.sin ((toRadians lon2 - toRadians lon1) / 2) ^ 2)))

/-- The message str(e) carries for a Python KeyError on a string key. -/
def keyErr (k : String) : String := "\x27" ++ k ++ "\x27"

/-- haversine_distance: look both keys up in the locations dict (a
missing key is a KeyError) and apply the haversine formula. -/
def haversine_distance (locs : Locations) (loc1 loc2 : String) :
    Except String ℝ :=
  match pylookup locs (.str loc1) with
  | none => .error (keyErr loc1)
  | some p1 =>
    match pylookup locs (.str loc2) with
    | none => .error (keyErr loc2)
    | some p2 => .ok (haversineCoords p1.latitude p1.longitude
        p2.latitude p2.longitude)

/-- geopy_distance. Modelled from the spec: the ellipsoidal geodesic
computation lives in the external geopy library, so it is passed in as
a pure function of the two coordinate pairs. -/
def geopy_distance (geodesicFn : ℝ → ℝ → ℝ → ℝ → ℝ) (locs : Locations)
    (loc1 loc2 : String) : Except String ℝ :=
  match pylookup locs (.str loc1) with
  | none => .error (keyErr loc1)
  | some p1 =>
    match pylookup locs (.str loc2) with
    | none => .error (keyErr loc2)
    | some p2 => .ok (geodesicFn p1.latitude p1.longitude
        p2.latitude p2.longitude)

/-- Outcome of the OSRM web request for one coordinate pair: an
exception anywhere in request/json handling, or a parsed body whose
routes field is absent (none) or a list of route distances in metres. -/
inductive OsrmResponse where
  | exc (msg : String)
  | resp (routes : Option (List ℝ))

/-- osrm_distance: both keys are looked up before the try block (a
missing key is an uncaught KeyError); on a response with a nonempty
routes list the first distance is converted from metres to kilometres;
on an empty or absent routes list, or on any exception, the function
falls back to haversine_distance for the same pair. -/
def osrm_distance (net : ℝ → ℝ → ℝ → ℝ → OsrmResponse)
    (locs : Locations) (loc1 loc2 : String) : Except String ℝ :=
  match pylookup locs (.str loc1) with
  | none => .error (keyErr loc1)
  | some p1 =>
    match pylookup locs (.str loc2) with
    | none => .error (keyErr loc2)
    | some p2 =>
      match net p1.longitude p1.latitude p2.longitude p2.latitude with
      | .resp (some (d :: _)) => .ok (d / 1000)
      | .resp (some []) => haversine_distance locs loc1 loc2
      | .resp none => haversine_distance locs loc1 loc2
      | .exc _ => haversine_distance locs loc1 loc2

/-- Construction-time configuration of the validator that the distance
layer reads: the distance_method string, plus the two external
collaborators (geopy geodesic and the OSRM service). -/
structure DistConfig where
  method : String
  geodesicFn : ℝ → ℝ → ℝ → ℝ → ℝ
  net : ℝ → ℝ → ℝ → ℝ → OsrmResponse

/-- The composite cache key built by calculate_distance. -/
def cacheKey (loc1 loc2 method : String) : String :=
  loc1 ++ "_" ++ loc2 ++ "_" ++ method

/-- The strategy dispatch of calculate_distance: an unrecognized method
name is a ValueError. -/
def computeByMethod (cfg : DistConfig) (locs : Locations)
    (loc1 loc2 : String) : Except String ℝ :=
  if cfg.method = "haversine" then haversine_distance locs loc1 loc2
  else if cfg.method = "geopy" then
    geopy_distance cfg.geodesicFn locs loc1 loc2
  else if cfg.method = "osrm" then osrm_distance cfg.net locs loc1 loc2
  else .error ("Unknown distance method: " ++ cfg.method)

/-- calculate_distance: build the composite key, return the cached value
on a hit, otherwise compute via the active strategy, store the result
under the key and return it. -/
def calculate_distance (cfg : DistConfig) (locs : Locations)
    (cache : Cache) (loc1 loc2 : String) : Except String (ℝ × Cache) :=
  match pylookup cache (cacheKey loc1 loc2 cfg.method) with
  | some d => .ok (d, cache)
  | none =>
    match computeByMethod cfg locs loc1 loc2 with
    | .error e => .error e
    | .ok d => .ok (d, cache ++ [(cacheKey loc1 loc2 cfg.method, d)])

/-- One row of depots.csv. -/
structure DepotRow where
  DepotID : Int
  Latitude : ℝ
  Longitude : ℝ

/-- One row of clients.csv. -/
structure ClientRow where
  ClientID : Int
  Latitude : ℝ
  Longitude : ℝ
  Demand : Int

/-- One row of vehicles.csv. -/
structure VehicleRow where
  VehicleID : Int
  Capacity : Int
  Range : Int

/-- One row of solution.csv, with the fields validate_solution reads.
The sequence and demand-list cells are the raw hyphen-delimited strings
the code splits itself; the numeric cells are the ints pandas delivers.
The TotalDistance, TotalTime and FuelCost columns are ignored. -/
structure SolutionRow where
  VehicleId : String
  DepotId : String
  InitialLoad : Int
  RouteSequence : String
  ClientsServed : Int
  DemandsSatisfied : String

/-- The capacity/range record of self.vehicle_specs. -/
structure VehicleSpec where
  capacity : Int
  range : Int
deriving DecidableEq

/-- Zero padding of Python format 03d for a nonnegative rendering. -/
def padZeros (w : Nat) (s : String) : String :=
  String.mk (List.replicate (w - s.length) '0') ++ s

/-- The client key built in init: the letter C plus the zero-padded
numeric client id, as in C007. -/
def formatClientKey (n : Int) : String := "C" ++ padZeros 3 (toString n)

/-- The init loop over depots and clients building self.locations: each
depot is keyed by its numeric id, depot 1 additionally by the string
CDA, and each client by its formatted client key. -/
def buildLocations (depots : List DepotRow) (clients : List ClientRow) :
    Locations :=
  (depots.foldl (fun acc d =>
    acc ++ [(PKey.int d.DepotID,
      ⟨d.Latitude, d.Longitude, "depot", none⟩)] ++
      (if d.DepotID = 1 then
        [(PKey.str "CDA", ⟨d.Latitude, d.Longitude, "depot", none⟩)]
      else [])) []) ++
  clients.map (fun c => (PKey.str (formatClientKey c.ClientID),
    ⟨c.Latitude, c.Longitude, "client", some c.Demand⟩))

/-- The init comprehension building self.client_demands. -/
def buildClientDemands (clients : List ClientRow) : List (String × Int) :=
  clients.map (fun c => (formatClientKey c.ClientID, c.Demand))

/-- The init comprehension building self.vehicle_specs. -/
def buildVehicleSpecs (vehicles : List VehicleRow) :
    List (Int × VehicleSpec) :=
  vehicles.map (fun v => (v.VehicleID, ⟨v.Capacity, v.Range⟩))

/-- The worker of pysplit: cut the character list at every separator,
keeping empty pieces, as Python str.split with an explicit separator. -/
def splitAux (sep : Char) : List Char → List Char → List String
  | [], cur => [String.mk cur.reverse]
  | c :: rest, cur =>
    if c = sep then String.mk cur.reverse :: splitAux sep rest []
    else splitAux sep rest (c :: cur)

/-- Python str.split on a one-character separator, as used on the
RouteSequence and DemandsSatisfied cells; an empty string yields one
empty piece. -/
def pysplit (s : String) (sep : Char) : List String :=
  splitAux sep s.data []

/-- Python str.replace of every occurrence of VEH by the empty string,
scanning left to right. -/
def stripVEH : List Char → List Char
  | 'V' :: 'E' :: 'H' :: rest => stripVEH rest
  | c :: rest => c :: stripVEH rest
  | [] => []

/-- The replace call of validate_solution on the VehicleId cell. -/
def replaceVEH (s : String) : String := String.mk (stripVEH s.data)

/-- Value of a decimal digit character. -/
def digitVal (c : Char) : Option Nat :=
  if '0' ≤ c ∧ c ≤ '9' then some (c.toNat - '0'.toNat) else none

/-- Accumulate decimal digits; any non-digit fails. -/
def parseDigits : List Char → Nat → Option Nat
  | [], acc => some acc
  | c :: rest, acc =>
    match digitVal c with
    | some d => parseDigits rest (acc * 10 + d)
    | none => none

/-- Python int() on a string: an optional sign followed by at least one
decimal digit; anything else raises a ValueError (here: none). -/
def pyint (s : String) : Option Int :=
  match s.data with
  | [] => none
  | '-' :: rest =>
    match rest with
    | [] => none
    | _ => (parseDigits rest 0).map (fun n => -(n : Int))
  | '+' :: rest =>
    match rest with
    | [] => none
    | _ => (parseDigits rest 0).map (fun n => (n : Int))
  | l => (parseDigits l 0).map (fun n => (n : Int))

/-- The int() parse of each entry of the split DemandsSatisfied cell;
the first unparseable entry raises a ValueError. -/
def parseDemandList : List String → Except String (List Int)
  | [] => .ok []
  | s :: rest =>
    match pyint s with
    | none => .error ("invalid literal for int() with base 10: " ++
        keyErr s)
    | some n =>
      match parseDemandList rest with
      | .ok ns => .ok (n :: ns)
      | .error e => .error e

/-- Python str.startswith for the single letter C. -/
def startsWithC (s : String) : Bool :=
  match s.data with
  | 'C' :: _ => true
  | _ => false

/-- The client test of the validator loops: the stop starts with C and
is not one of the reserved depot aliases. -/
def isClientStop (loc : String) : Bool :=
  startsWithC loc &&
    decide (loc ∉ (["CDA", "CDB", "CDC"] : List String))

/-- Error string of check 1. -/
def depotMsg (vid depot : String) : String :=
  "Route " ++ vid ++ " does not start and end at depot " ++ depot

/-- Error string of check 2. -/
def capacityMsg (vid : String) (load cap : Int) : String :=
  "Route " ++ vid ++ " exceeds capacity: " ++ toString load ++ " > " ++
    toString cap

/-- Error string for a stop missing from the locations dict. -/
def invalidLocMsg (vid loc : String) : String :=
  "Route " ++ vid ++ " has invalid location: " ++ loc

/-- Error string for an exception caught around calculate_distance. -/
def calcErrMsg (vid e : String) : String :=
  "Route " ++ vid ++ " distance calculation error: " ++ e

/-- Error string of the range comparison; the total is rendered by the
float formatting parameter. -/
def rangeMsg (vid : String) (fmt : ℝ → String) (total : ℝ)
    (rge : Int) : String :=
  "Route " ++ vid ++ " exceeds range: " ++ fmt total ++ " > " ++
    toString rge

/-- Error string for a client stop beyond the end of the demand list. -/
def missingDemandMsg (vid loc : String) : String :=
  "Route " ++ vid ++ " has missing demand value for client " ++ loc

/-- Error string for a demand mismatch. -/
def wrongDemandMsg (vid loc : String) (actual expected : Int) : String :=
  "Route " ++ vid ++ " has incorrect demand for " ++ loc ++ ": " ++
    toString actual ++ " != " ++ toString expected

/-- Error string for duplicate client visits within one route. -/
def dupMsg (vid : String) : String :=
  "Route " ++ vid ++ " has duplicate client visits"

/-- Error string of the clients_served comparison. -/
def servedMsg (vid : String) (found : Nat) (declared : Int) : String :=
  "Route " ++ vid ++ " clients_served mismatch: " ++ toString found ++
    " != " ++ toString declared

/-- Error string of the global coverage check. -/
def notVisitedMsg (c : String) : String :=
  "Client " ++ c ++ " was not visited"

/-- The check-3 loop over consecutive stop pairs: a pair whose origin is
missing from the locations dict yields one error and is skipped (the
destination of that pair is not examined); a pair with a known origin
and missing destination yields one error and is skipped; otherwise
calculate_distance runs under try/except, an exception becoming one
error and contributing nothing, a value being added to the total. -/
def rangeLoop (cfg : DistConfig) (locs : Locations) (vid : String) :
    List String → ℝ → List String → Cache → ℝ × List String × Cache
  | [], total, errors, cache => (total, errors, cache)
  | [_], total, errors, cache => (total, errors, cache)
  | from_loc :: to_loc :: rest, total, errors, cache =>
    if (pylookup locs (.str from_loc)).isNone then
      rangeLoop cfg locs vid (to_loc :: rest) total
        (errors ++ [invalidLocMsg vid from_loc]) cache
    else if (pylookup locs (.str to_loc)).isNone then
      rangeLoop cfg locs vid (to_loc :: rest) total
        (errors ++ [invalidLocMsg vid to_loc]) cache
    else
      match calculate_distance cfg locs cache from_loc to_loc with
      | .ok (d, cache') =>
        rangeLoop cfg locs vid (to_loc :: rest) (total + d) errors cache'
      | .error e =>
        rangeLoop cfg locs vid (to_loc :: rest) total
          (errors ++ [calcErrMsg vid e]) cache

/-- The check-4 loop: a client stop beyond the end of the demand list
yields a missing-demand error and is skipped (in particular it is not
added to the visited set and does not advance the index); a client stop
within the list is added to the visited set, consumes the next demand
entry and yields a mismatch error when it differs from the required
demand looked up in client_demands with default 0. -/
def demandLoop (vid : String) (cds : List (String × Int))
    (demands : List Int) :
    List String → Nat → List String → List String →
      List String × List String
  | [], _, errors, visited => (errors, visited)
  | loc :: rest, client_idx, errors, visited =>
    if isClientStop loc then
      if demands.length ≤ client_idx then
        demandLoop vid cds demands rest client_idx
          (errors ++ [missingDemandMsg vid loc]) visited
      else
        let visited' := if loc ∈ visited then visited else visited ++ [loc]
        let expected := (pylookup cds loc).getD 0
        let actual := demands.getD client_idx 0
        let errors' := if actual ≠ expected then
            errors ++ [wrongDemandMsg vid loc actual expected]
          else errors
        demandLoop vid cds demands rest (client_idx + 1) errors' visited'
    else demandLoop vid cds demands rest client_idx errors visited

/-- The per-pass accumulator of validate_solution: the error list, the
process-wide visited_clients set (as an insertion-ordered list) and the
in-memory distance cache. -/
structure RouteAcc where
  errors : List String
  visited : List String
  cache : Cache

/-- The five in-route checks of validate_solution, after the row cells
parsed and the vehicle spec resolved, appending errors in discovery
order. -/
def routeBody (cfg : DistConfig) (fmt : ℝ → String) (locs : Locations)
    (cds : List (String × Int)) (acc : RouteAcc) (row : SolutionRow)
    (demands_satisfied : List Int) (vehicle_spec : VehicleSpec) :
    RouteAcc :=
  let route_sequence := pysplit row.RouteSequence '-'
  let errors1 := acc.errors ++
    (if route_sequence.headD "" ≠ row.DepotId ∨
        route_sequence.getLastD "" ≠ row.DepotId then
      [depotMsg row.VehicleId row.DepotId]
    else [])
  let errors2 := errors1 ++
    (if row.InitialLoad > vehicle_spec.capacity then
      [capacityMsg row.VehicleId row.InitialLoad vehicle_spec.capacity]
    else [])
  let rl := rangeLoop cfg locs row.VehicleId route_sequence 0 errors2
    acc.cache
  let total := rl.1
  let errors3 := rl.2.1
  let cache1 := rl.2.2
  let errors4 := errors3 ++
    (if total > (vehicle_spec.range : ℝ) then
      [rangeMsg row.VehicleId fmt total vehicle_spec.range]
    else [])
  let dl := demandLoop row.VehicleId cds demands_satisfied
    route_sequence 0 errors4 acc.visited
  let errors5 := dl.1
  let visited1 := dl.2
  let route_clients := route_sequence.filter isClientStop
  let errors6 := errors5 ++
    (if route_clients.length ≠ route_clients.dedup.length then
      [dupMsg row.VehicleId]
    else [])
  let errors7 := errors6 ++
    (if (route_clients.length : Int) ≠ row.ClientsServed then
      [servedMsg row.VehicleId route_clients.length row.ClientsServed]
    else [])
  ⟨errors7, visited1, cache1⟩

/-- The body of the per-route loop of validate_solution: parse the row
cells (a failure propagates as an exception), resolve the vehicle spec
(a missing vehicle id is an uncaught KeyError), then run the five
in-route checks. -/
def processRoute (cfg : DistConfig) (fmt : ℝ → String)
    (locs : Locations) (cds : List (String × Int))
    (vss : List (Int × VehicleSpec)) (acc : RouteAcc)
    (row : SolutionRow) : Except String RouteAcc :=
  match parseDemandList (pysplit row.DemandsSatisfied '-') with
  | .error e => .error e
  | .ok demands_satisfied =>
    match pyint (replaceVEH row.VehicleId) with
    | none => .error ("invalid literal for int() with base 10: " ++
        keyErr (replaceVEH row.VehicleId))
    | some vehicle_number =>
      match pylookup vss vehicle_number with
      | none => .error (toString vehicle_number)
      | some vehicle_spec =>
        .ok (routeBody cfg fmt locs cds acc row demands_satisfied
          vehicle_spec)

/-- The iteration of the per-route loop over the solution rows; an
exception in any route aborts the pass. -/
def runRoutes (cfg : DistConfig) (fmt : ℝ → String) (locs : Locations)
    (cds : List (String × Int)) (vss : List (Int × VehicleSpec)) :
    List SolutionRow → RouteAcc → Except String RouteAcc
  | [], acc => .ok acc
  | row :: rest, acc =>
    match processRoute cfg fmt locs cds vss acc row with
    | .ok acc' => runRoutes cfg fmt locs cds vss rest acc'
    | .error e => .error e

/-- The result dict of validate_solution. -/
structure VResult where
  feasible : Bool
  errors : List String
deriving DecidableEq

/-- The ambient file-backed state: the in-memory cache, the persisted
store contents and a count of save_cache invocations. -/
structure VState where
  cache : Cache
  persisted : Cache
  saves : Nat

/-- save_cache: overwrite the persisted store with the entire in-memory
cache. -/
def save_cache (st : VState) : VState :=
  { st with persisted := st.cache, saves := st.saves + 1 }

/-- validate_solution: run the per-route checks over all rows, then the
global coverage check, save the cache, and return the result whose
feasible flag is the emptiness test of the accumulated error list. -/
def validate_solution (cfg : DistConfig) (fmt : ℝ → String)
    (locs : Locations) (cds : List (String × Int))
    (vss : List (Int × VehicleSpec)) (rows : List SolutionRow)
    (st : VState) : Except String (VResult × VState) :=
  match runRoutes cfg fmt locs cds vss rows ⟨[], [], st.cache⟩ with
  | .error e => .error e
  | .ok acc =>
    let all_clients := (cds.map Prod.fst).dedup
    let missing := all_clients.filter (fun c => decide (c ∉ acc.visited))
    let errors := acc.errors ++ missing.map notVisitedMsg
    let st1 := save_cache { st with cache := acc.cache }
    .ok (⟨errors.length == 0, errors⟩, st1)

/-! Sample data used by witnesses. -/

/-- A haversine configuration with inert external collaborators. -/
def cfgH : DistConfig := ⟨"haversine", fun _ _ _ _ => 0,
  fun _ _ _ _ => .resp none⟩

/-- A trivial float formatter. -/
def fmt0 : ℝ → String := fun _ => ""

/-- A small concrete locations dict: the depot alias at the origin and
one client one degree of longitude away. -/
def sampleLocs : Locations :=
  [(PKey.str "CDA", ⟨0, 0, "depot", none⟩),
   (PKey.str "C001", ⟨0, 1, "client", some 5⟩)]

/-- The character test used to recover the first identifier from a
composite cache key. -/
def notUnderscore (c : Char) : Bool := c != '_'

/-! The concrete C6 dataset. -/

/-- The C6 depot record: depot 1 (alias CDA) at the origin. -/
def depotsC6 : List DepotRow := [⟨1, 0, 0⟩]

/-- The C6 client record: client C001 at latitude 0, longitude 1,
demand 5. -/
def clientsC6 : List ClientRow := [⟨1, 0, 1, 5⟩]

/-- The C6 vehicle record: vehicle 1, capacity 10, range 1000. -/
def vehiclesC6 : List VehicleRow := [⟨1, 10, 1000⟩]

/-- The C6 solution row: VEH1 from CDA, initial load 5, sequence
CDA-C001-CDA, one client served, declared demand 5. -/
def rowC6 : SolutionRow := ⟨"VEH1", "CDA", 5, "CDA-C001-CDA", 1, "5"⟩

/-- The client stops of a row that consume a declared demand entry: the
first (length of the parsed demand list) client stops of its split
sequence. Empty when the demand cell does not parse. -/
def consumedClientStops (row : SolutionRow) : List String :=
  match parseDemandList (pysplit row.DemandsSatisfied '-') with
  | .ok ds => ((pysplit row.RouteSequence '-').filter
      isClientStop).take ds.length
  | .error _ => []

/-- The client stops of a row beyond the end of its declared demand
list. Empty when the demand cell does not parse. -/
def exhaustedClientStops (row : SolutionRow) : List String :=
  match parseDemandList (pysplit row.DemandsSatisfied '-') with
  | .ok ds => ((pysplit row.RouteSequence '-').filter
      isClientStop).drop ds.length
  | .error _ => []

/-- Whether an Except value is a normal return. -/
def exOk {e a : Type} : Except e a → Bool
  | .ok _ => true
  | .error _ => false

/-- The parse obligations of one solution row: its demand cell parses
entrywise, and its vehicle id parses to a number present in the
vehicle-spec mapping. -/
abbrev rowParseOk (vss : List (Int × VehicleSpec))
    (row : SolutionRow) : Prop :=
  exOk (parseDemandList (pysplit row.DemandsSatisfied '-')) = true ∧
  ((pyint (replaceVEH row.VehicleId)).bind (pylookup vss)).isSome = true

/-- The client-demand mapping of the C10 witness dataset. -/
def cdsW : List (String × Int) := [("C001", 5), ("C002", 7)]

/-- The vehicle-spec mapping of the C10 witness dataset. -/
def vssW : List (Int × VehicleSpec) := [(1, ⟨10, 1000⟩)]

/-- The C10 witness route: one declared demand entry but two client
stops, so C002 falls beyond the end of the demand list. -/
def rowW : SolutionRow := ⟨"VEH1", "CDA", 5, "CDA-C001-C002-CDA", 2, "5"⟩

/-! Helper lemmas about pylookup. -/

theorem pylookup_append_some {α β : Type} [DecidableEq α]
    {l1 : List (α × β)} (l2 : List (α × β)) {k : α} {v : β}
    (h : pylookup l1 k = some v) : pylookup (l1 ++ l2) k = some v := by
  induction l1 with
  | nil => simp [pylookup] at h
  | cons p rest ih =>
    match p with
    | (a, b) =>
      by_cases hk : a = k
      · simp [pylookup, hk] at h ⊢
        exact h
      · simp [pylookup, hk] at h ⊢
        exact ih h

theorem pylookup_append_none {α β : Type} [DecidableEq α]
    {l1 : List (α × β)} (l2 : List (α × β)) {k : α}
    (h : pylookup l1 k = none) :
    pylookup (l1 ++ l2) k = pylookup l2 k := by
  induction l1 with
  | nil => simp [pylookup]
  | cons p rest ih =>
    match p with
    | (a, b) =>
      by_cases hk : a = k
      · simp [pylookup, hk] at h
      · simp [pylookup, hk] at h ⊢
        exact ih h

/-- C1: for every validation pass that returns, the feasibility flag of
the returned result is true exactly when its error list is empty: the
result is consistent by construction. -/
theorem c1_feasible_iff_no_errors (cfg : DistConfig) (fmt : ℝ → String)
    (locs : Locations) (cds : List (String × Int))
    (vss : List (Int × VehicleSpec)) (rows : List SolutionRow)
    (st : VState) (r : VResult) (st' : VState)
    (h : validate_solution cfg fmt locs cds vss rows st = .ok (r, st')) :
    r.feasible = true ↔ r.errors = [] := by
  unfold validate_solution at h
  cases hrr : runRoutes cfg fmt locs cds vss rows ⟨[], [], st.cache⟩ with
  | error e => rw [hrr] at h; exact absurd h (by simp)
  | ok acc =>
    rw [hrr] at h
    simp only [Except.ok.injEq, Prod.mk.injEq] at h
    obtain ⟨h1, _⟩ := h
    rw [← h1]
    simp [List.length_eq_zero]

/-- Witness for C1 at a concrete empty dataset. -/
theorem c1_witness :
    (VResult.mk true []).feasible = true ↔ (VResult.mk true []).errors = [] :=
  c1_feasible_iff_no_errors cfgH fmt0 [] [] [] [] ⟨[], [], 0⟩
    ⟨true, []⟩ ⟨[], [], 1⟩ rfl

/-- C3: cache idempotence of calculate_distance. If a first call under
some configuration returns a value and an updated cache, then a second
call on the same ordered pair under any configuration with the same
method name, any locations dict, and the updated cache returns the
identical value and leaves the cache unchanged: the second call is a
pure cache hit and never invokes a strategy, even a corrupted one. -/
theorem c3_cache_idempotent (cfg cfg' : DistConfig)
    (locs locs' : Locations) (cache : Cache) (a b : String) (d : ℝ)
    (c1 : Cache) (hm : cfg'.method = cfg.method)
    (h : calculate_distance cfg locs cache a b = .ok (d, c1)) :
    calculate_distance cfg' locs' c1 a b = .ok (d, c1) := by
  unfold calculate_distance at h ⊢
  rw [hm]
  cases hl : pylookup cache (cacheKey a b cfg.method) with
  | some v =>
    rw [hl] at h
    simp only [Except.ok.injEq, Prod.mk.injEq] at h
    obtain ⟨rfl, rfl⟩ := h
    rw [hl]
  | none =>
    rw [hl] at h
    cases hc : computeByMethod cfg locs a b with
    | error e => rw [hc] at h; exact absurd h (by simp)
    | ok dv =>
      rw [hc] at h
      simp only [Except.ok.injEq, Prod.mk.injEq] at h
      obtain ⟨rfl, rfl⟩ := h
      rw [pylookup_append_none _ hl]
      simp [pylookup]

/-- Witness for C3: a first call on an empty cache computes the
haversine value and stores it; a second call under a corrupted
configuration (different strategy functions, emptied locations dict)
still returns the stored value with the cache unchanged. -/
theorem c3_witness :
    calculate_distance cfgH sampleLocs [] "CDA" "C001" =
      .ok (haversineCoords 0 0 0 1,
        [(cacheKey "CDA" "C001" "haversine", haversineCoords 0 0 0 1)]) ∧
    calculate_distance ⟨"haversine", fun _ _ _ _ => 99,
        fun _ _ _ _ => .exc "down"⟩ []
      [(cacheKey "CDA" "C001" "haversine", haversineCoords 0 0 0 1)]
      "CDA" "C001" =
      .ok (haversineCoords 0 0 0 1,
        [(cacheKey "CDA" "C001" "haversine", haversineCoords 0 0 0 1)]) :=
  ⟨rfl, c3_cache_idempotent cfgH ⟨"haversine", fun _ _ _ _ => 99,
      fun _ _ _ _ => .exc "down"⟩ sampleLocs [] [] "CDA" "C001"
    (haversineCoords 0 0 0 1)
    [(cacheKey "CDA" "C001" "haversine", haversineCoords 0 0 0 1)]
    rfl rfl⟩

/-! Helper lemmas about the composite cache key. -/

theorem takeWhile_no_underscore (xs rest : List Char)
    (h : '_' ∉ xs) :
    List.takeWhile notUnderscore (xs ++ '_' :: rest) = xs := by
  induction xs with
  | nil => simp [List.takeWhile_cons, notUnderscore]
  | cons a as ih =>
    simp only [List.mem_cons, not_or] at h
    obtain ⟨h1, h2⟩ := h
    have h1' : ¬a = '_' := fun hc => h1 hc.symm
    simp [List.takeWhile_cons, notUnderscore, h1', ih h2]

theorem cacheKey_data (a b m : String) :
    (cacheKey a b m).data = a.data ++ '_' :: (b.data ++ '_' :: m.data) := by
  have hu : ("_" : String).data = ['_'] := rfl
  simp [cacheKey, String.data_append, hu]

/-- C8: the cache is directional and strategy-scoped. For alphanumeric
location identifiers (no underscore occurs in them), distinct ordered
pairs (a, b) and (b, a) always produce distinct composite cache keys,
and a fixed ordered pair produces distinct keys under distinct strategy
names, so reversed pairs and different strategies never share
entries. -/
theorem c8_cache_key_directional_strategy_scoped (a b m m1 m2 : String)
    (ha : '_' ∉ a.data) (hb : '_' ∉ b.data) :
    (a ≠ b → cacheKey a b m ≠ cacheKey b a m) ∧
    (m1 ≠ m2 → cacheKey a b m1 ≠ cacheKey a b m2) := by
  constructor
  · intro hab heq
    apply hab
    have h := congrArg (fun s => List.takeWhile notUnderscore s.data) heq
    simp only [cacheKey_data] at h
    rw [takeWhile_no_underscore _ _ ha, takeWhile_no_underscore _ _ hb]
      at h
    exact String.ext h
  · intro hmm heq
    apply hmm
    have h := congrArg String.data heq
    simp only [cacheKey_data] at h
    have h2 := List.append_cancel_left h
    injection h2 with _ h3
    have h4 := List.append_cancel_left h3
    injection h4 with _ h5
    exact String.ext h5

/-- Witness for C8 on the concrete identifiers C001 and CDA under the
haversine and osrm strategy names. -/
theorem c8_witness :
    ('_' ∉ ("C001" : String).data ∧ '_' ∉ ("CDA" : String).data ∧
      ("C001" : String) ≠ "CDA" ∧
      ("haversine" : String) ≠ "osrm") ∧
    cacheKey "C001" "CDA" "haversine" ≠ cacheKey "CDA" "C001" "haversine" ∧
    cacheKey "C001" "CDA" "haversine" ≠ cacheKey "C001" "CDA" "osrm" :=
  ⟨⟨by decide, by decide, by decide, by decide⟩,
    (c8_cache_key_directional_strategy_scoped "C001" "CDA" "haversine"
      "haversine" "osrm" (by decide) (by decide)).1 (by decide),
    (c8_cache_key_directional_strategy_scoped "C001" "CDA" "haversine"
      "haversine" "osrm" (by decide) (by decide)).2 (by decide)⟩

/-! Haversine facts. -/

theorem haversineCoords_comm (lat1 lon1 lat2 lon2 : ℝ) :
    haversineCoords lat1 lon1 lat2 lon2 =
      haversineCoords lat2 lon2 lat1 lon1 := by
  unfold haversineCoords
  have k : ∀ x y : ℝ,
      Real.sin ((x - y) / 2) ^ 2 = Real.sin ((y - x) / 2) ^ 2 := by
    intro x y
    rw [show (x - y) / 2 = -((y - x) / 2) by ring, Real.sin_neg]
    ring
  rw [k (toRadians lat2) (toRadians lat1),
    k (toRadians lon2) (toRadians lon1),
    mul_comm (Real.cos (toRadians lat1)) (Real.cos (toRadians lat2))]

theorem haversineCoords_self (lat lon : ℝ) :
    haversineCoords lat lon lat lon = 0 := by
  unfold haversineCoords
  simp

/-- C9: on registered locations, haversine_distance is symmetric and
vanishes on the diagonal. -/
theorem c9_haversine_symmetric_and_zero (locs : Locations)
    (a b : String) (pa pb : LocEntry)
    (ha : pylookup locs (.str a) = some pa)
    (hb : pylookup locs (.str b) = some pb) :
    haversine_distance locs a b = haversine_distance locs b a ∧
    haversine_distance locs a a = .ok 0 := by
  constructor
  · simp [haversine_distance, ha, hb, haversineCoords_comm]
  · simp [haversine_distance, ha, haversineCoords_self]

/-- Witness for C9 at the concrete sample registry. -/
theorem c9_witness :
    haversine_distance sampleLocs "CDA" "C001" =
      haversine_distance sampleLocs "C001" "CDA" ∧
    haversine_distance sampleLocs "CDA" "CDA" = .ok 0 :=
  c9_haversine_symmetric_and_zero sampleLocs "CDA" "C001"
    ⟨0, 0, "depot", none⟩ ⟨0, 1, "client", some 5⟩ rfl rfl

/-- C7: for a pair of known locations, osrm_distance never propagates a
service failure: on an exception anywhere in the request, an absent
routes field, or an empty routes list it returns exactly the
great-circle value for the same pair (and that value is an ok result,
not an exception); on success it returns the first reported distance
converted from metres to kilometres. -/
theorem c7_osrm_fallback (net : ℝ → ℝ → ℝ → ℝ → OsrmResponse)
    (locs : Locations) (a b : String) (pa pb : LocEntry)
    (ha : pylookup locs (.str a) = some pa)
    (hb : pylookup locs (.str b) = some pb) :
    haversine_distance locs a b = .ok (haversineCoords pa.latitude
      pa.longitude pb.latitude pb.longitude) ∧
    (∀ msg, net pa.longitude pa.latitude pb.longitude pb.latitude =
        .exc msg →
      osrm_distance net locs a b = haversine_distance locs a b) ∧
    (net pa.longitude pa.latitude pb.longitude pb.latitude =
        .resp none →
      osrm_distance net locs a b = haversine_distance locs a b) ∧
    (net pa.longitude pa.latitude pb.longitude pb.latitude =
        .resp (some []) →
      osrm_distance net locs a b = haversine_distance locs a b) ∧
    (∀ d ds, net pa.longitude pa.latitude pb.longitude pb.latitude =
        .resp (some (d :: ds)) →
      osrm_distance net locs a b = .ok (d / 1000)) := by
  refine ⟨?_, ?_, ?_, ?_, ?_⟩
  · simp [haversine_distance, ha, hb]
  · intro msg hn
    simp [osrm_distance, ha, hb, hn]
  · intro hn
    simp [osrm_distance, ha, hb, hn]
  · intro hn
    simp [osrm_distance, ha, hb, hn]
  · intro d ds hn
    simp [osrm_distance, ha, hb, hn]

/-- Witness for C7: a service that always raises makes osrm_distance
return the haversine value for the pair, with no exception. -/
theorem c7_witness :
    osrm_distance (fun _ _ _ _ => .exc "connection error") sampleLocs
      "CDA" "C001" = haversine_distance sampleLocs "CDA" "C001" ∧
    haversine_distance sampleLocs "CDA" "C001" =
      .ok (haversineCoords 0 0 0 1) := by
  have h := c7_osrm_fallback (fun _ _ _ _ => .exc "connection error")
    sampleLocs "CDA" "C001" ⟨0, 0, "depot", none⟩
    ⟨0, 1, "client", some 5⟩ rfl rfl
  exact ⟨h.2.1 "connection error" rfl, h.1⟩

/-! Exact haversine values at the C6 coordinates. -/

theorem haversine_zero_one :
    haversineCoords 0 0 0 1 = 6371 * (Real.pi / 180) := by
  have hpi := Real.pi_pos
  unfold haversineCoords toRadians
  rw [show ((0:ℝ) * (Real.pi / 180) - 0 * (Real.pi / 180)) / 2 = 0
      by ring,
    show ((1:ℝ) * (Real.pi / 180) - 0 * (Real.pi / 180)) / 2 =
      Real.pi / 360 by ring,
    show (0:ℝ) * (Real.pi / 180) = 0 by ring]
  rw [Real.sin_zero, Real.cos_zero]
  rw [show (0:ℝ) ^ 2 + 1 * 1 * Real.sin (Real.pi / 360) ^ 2 =
      Real.sin (Real.pi / 360) ^ 2 by ring]
  rw [Real.sqrt_sq (Real.sin_nonneg_of_nonneg_of_le_pi (by positivity)
    (by linarith))]
  rw [Real.arcsin_sin (by linarith) (by linarith)]
  ring

theorem haversine_one_zero :
    haversineCoords 0 1 0 0 = 6371 * (Real.pi / 180) := by
  rw [haversineCoords_comm]
  exact haversine_zero_one

/-- C6: the end-to-end dataset of the spec validates as feasible with
an empty error list. -/
theorem c6_end_to_end_feasible :
    Except.map Prod.fst (validate_solution cfgH fmt0
      (buildLocations depotsC6 clientsC6) (buildClientDemands clientsC6)
      (buildVehicleSpecs vehiclesC6) [rowC6] ⟨[], [], 0⟩) =
    .ok ⟨true, []⟩ := by
  have hc : ¬((0:ℝ) + haversineCoords 0 0 0 1 +
      haversineCoords 0 1 0 0 > ((1000:Int):ℝ)) := by
    rw [haversine_zero_one, haversine_one_zero]
    have h4 := Real.pi_lt_four
    have hp := Real.pi_pos
    push_cast
    nlinarith
  have hrun : runRoutes cfgH fmt0 (buildLocations depotsC6 clientsC6)
      (buildClientDemands clientsC6) (buildVehicleSpecs vehiclesC6)
      [rowC6] ⟨[], [], []⟩ =
    .ok ⟨(((if (0:ℝ) + haversineCoords 0 0 0 1 +
          haversineCoords 0 1 0 0 > ((1000:Int):ℝ) then
        [rangeMsg "VEH1" fmt0 (0 + haversineCoords 0 0 0 1 +
          haversineCoords 0 1 0 0) 1000]
      else []) ++ []) ++ []),
      ["C001"],
      [(cacheKey "CDA" "C001" "haversine", haversineCoords 0 0 0 1),
       (cacheKey "C001" "CDA" "haversine", haversineCoords 0 1 0 0)]⟩ :=
    rfl
  rw [if_neg hc] at hrun
  unfold validate_solution
  rw [hrun]
  rfl

/-! Structural lemmas about the validator loops. -/

theorem calculate_distance_cache_mono (cfg : DistConfig)
    (locs : Locations) (cache : Cache) (a b : String) (d : ℝ)
    (c' : Cache)
    (h : calculate_distance cfg locs cache a b = .ok (d, c'))
    (k : String) (v : ℝ) (hk : pylookup cache k = some v) :
    pylookup c' k = some v := by
  unfold calculate_distance at h
  cases hl : pylookup cache (cacheKey a b cfg.method) with
  | some x =>
    rw [hl] at h
    simp only [Except.ok.injEq, Prod.mk.injEq] at h
    obtain ⟨-, rfl⟩ := h
    exact hk
  | none =>
    rw [hl] at h
    cases hcm : computeByMethod cfg locs a b with
    | error e => rw [hcm] at h; exact absurd h (by simp)
    | ok dv =>
      rw [hcm] at h
      simp only [Except.ok.injEq, Prod.mk.injEq] at h
      obtain ⟨-, rfl⟩ := h
      exact pylookup_append_some _ hk

theorem rangeLoop_cache_mono (cfg : DistConfig) (locs : Locations)
    (vid : String) :
    ∀ (seq : List String) (total : ℝ) (errors : List String)
      (cache : Cache) (k : String) (v : ℝ),
      pylookup cache k = some v →
      pylookup (rangeLoop cfg locs vid seq total errors cache).2.2 k =
        some v := by
  intro seq
  induction seq with
  | nil => intro total errors cache k v h; simpa [rangeLoop] using h
  | cons f tail ih =>
    intro total errors cache k v h
    cases tail with
    | nil => simpa [rangeLoop] using h
    | cons t rest =>
      by_cases h1 : (pylookup locs (.str f)).isNone
      · simp only [rangeLoop, if_pos h1]
        exact ih total _ cache k v h
      · by_cases h2 : (pylookup locs (.str t)).isNone
        · simp only [rangeLoop, if_neg h1, if_pos h2]
          exact ih total _ cache k v h
        · simp only [rangeLoop, if_neg h1, if_neg h2]
          cases hcd : calculate_distance cfg locs cache f t with
          | ok p =>
            exact ih (total + p.1) errors p.2 k v
              (calculate_distance_cache_mono cfg locs cache f t p.1 p.2
                (by rw [hcd]) k v h)
          | error e =>
            exact ih total _ cache k v h

theorem rangeLoop_errors_mono (cfg : DistConfig) (locs : Locations)
    (vid : String) :
    ∀ (seq : List String) (total : ℝ) (errors : List String)
      (cache : Cache) (e : String),
      e ∈ errors →
      e ∈ (rangeLoop cfg locs vid seq total errors cache).2.1 := by
  intro seq
  induction seq with
  | nil => intro total errors cache e h; simpa [rangeLoop] using h
  | cons f tail ih =>
    intro total errors cache e h
    cases tail with
    | nil => simpa [rangeLoop] using h
    | cons t rest =>
      by_cases h1 : (pylookup locs (.str f)).isNone
      · simp only [rangeLoop, if_pos h1]
        exact ih total _ cache e
          (List.mem_append.mpr (Or.inl h))
      · by_cases h2 : (pylookup locs (.str t)).isNone
        · simp only [rangeLoop, if_neg h1, if_pos h2]
          exact ih total _ cache e
            (List.mem_append.mpr (Or.inl h))
        · simp only [rangeLoop, if_neg h1, if_neg h2]
          cases hcd : calculate_distance cfg locs cache f t with
          | ok p => exact ih (total + p.1) errors p.2 e h
          | error ex =>
            exact ih total _ cache e
              (List.mem_append.mpr (Or.inl h))

/-- The total and the final cache of the check-3 loop do not depend on
the incoming error list. -/
theorem rangeLoop_fst_indep (cfg : DistConfig) (locs : Locations)
    (vid : String) :
    ∀ (seq : List String) (total : ℝ) (e1 e2 : List String)
      (cache : Cache),
      (rangeLoop cfg locs vid seq total e1 cache).1 =
        (rangeLoop cfg locs vid seq total e2 cache).1 := by
  intro seq
  induction seq with
  | nil => intro total e1 e2 cache; simp [rangeLoop]
  | cons f tail ih =>
    intro total e1 e2 cache
    cases tail with
    | nil => simp [rangeLoop]
    | cons t rest =>
      by_cases h1 : (pylookup locs (.str f)).isNone
      · simp only [rangeLoop, if_pos h1]
        exact ih total _ _ cache
      · by_cases h2 : (pylookup locs (.str t)).isNone
        · simp only [rangeLoop, if_neg h1, if_pos h2]
          exact ih total _ _ cache
        · simp only [rangeLoop, if_neg h1, if_neg h2]
          cases hcd : calculate_distance cfg locs cache f t with
          | ok p => exact ih (total + p.1) e1 e2 p.2
          | error ex => exact ih total _ _ cache

theorem demandLoop_errors_mono (vid : String)
    (cds : List (String × Int)) (ds : List Int) :
    ∀ (seq : List String) (idx : Nat) (errors visited : List String)
      (e : String),
      e ∈ errors →
      e ∈ (demandLoop vid cds ds seq idx errors visited).1 := by
  intro seq
  induction seq with
  | nil => intro idx errors visited e h; simpa [demandLoop] using h
  | cons loc rest ih =>
    intro idx errors visited e h
    cases hb : isClientStop loc with
    | false =>
      simp only [demandLoop, hb, Bool.false_eq_true, if_false]
      exact ih idx _ _ e h
    | true =>
      by_cases hlen : ds.length ≤ idx
      · simp only [demandLoop, hb, if_true, if_pos hlen]
        exact ih idx _ _ e (List.mem_append.mpr (Or.inl h))
      · simp only [demandLoop, hb, if_true, if_neg hlen]
        by_cases hd : ds.getD idx 0 ≠ (pylookup cds loc).getD 0
        · simp only [if_pos hd]
          exact ih (idx + 1) _ _ e
            (List.mem_append.mpr (Or.inl h))
        · simp only [if_neg hd]
          exact ih (idx + 1) _ _ e h

theorem demandLoop_visited_mem (vid : String)
    (cds : List (String × Int)) (ds : List Int) :
    ∀ (seq : List String) (idx : Nat) (errors visited : List String)
      (x : String),
      x ∈ (demandLoop vid cds ds seq idx errors visited).2 ↔
        x ∈ visited ∨
          x ∈ (seq.filter isClientStop).take (ds.length - idx) := by
  intro seq
  induction seq with
  | nil => intro idx errors visited x; simp [demandLoop]
  | cons loc rest ih =>
    intro idx errors visited x
    cases hb : isClientStop loc with
    | false =>
      simp only [demandLoop, hb, Bool.false_eq_true, if_false]
      rw [ih]
      simp [List.filter_cons, hb]
    | true =>
      by_cases hlen : ds.length ≤ idx
      · simp only [demandLoop, hb, if_true, if_pos hlen]
        rw [ih]
        simp [List.filter_cons, hb, Nat.sub_eq_zero_of_le hlen]
      · push_neg at hlen
        simp only [demandLoop, hb, if_true, if_neg (not_le.mpr hlen)]
        have hsub : ds.length - idx = (ds.length - (idx + 1)) + 1 := by
          omega
        rw [ih]
        simp only [List.filter_cons, hb, if_true, hsub,
          List.take_succ_cons, List.mem_cons]
        by_cases hv : loc ∈ visited
        · simp only [if_pos hv]
          constructor
          · rintro (h | h)
            · exact Or.inl h
            · exact Or.inr (Or.inr h)
          · rintro (h | h | h)
            · exact Or.inl h
            · exact Or.inl (h ▸ hv)
            · exact Or.inr h
        · simp only [if_neg hv, List.mem_append,
            List.mem_singleton]
          constructor
          · rintro ((h | h) | h)
            · exact Or.inl h
            · exact Or.inr (Or.inl h)
            · exact Or.inr (Or.inr h)
          · rintro (h | h | h)
            · exact Or.inl (Or.inl h)
            · exact Or.inl (Or.inr h)
            · exact Or.inr h

theorem demandLoop_missing_mem (vid : String)
    (cds : List (String × Int)) (ds : List Int) :
    ∀ (seq : List String) (idx : Nat) (errors visited : List String)
      (loc : String),
      loc ∈ (seq.filter isClientStop).drop (ds.length - idx) →
      missingDemandMsg vid loc ∈
        (demandLoop vid cds ds seq idx errors visited).1 := by
  intro seq
  induction seq with
  | nil => intro idx errors visited loc h; simp at h
  | cons l rest ih =>
    intro idx errors visited loc h
    cases hb : isClientStop l with
    | false =>
      simp only [List.filter_cons, hb, Bool.false_eq_true, if_false] at h
      simp only [demandLoop, hb, Bool.false_eq_true, if_false]
      exact ih idx _ _ loc h
    | true =>
      by_cases hlen : ds.length ≤ idx
      · rw [Nat.sub_eq_zero_of_le hlen, List.drop_zero] at h
        simp only [List.filter_cons, hb, if_true,
          List.mem_cons] at h
        simp only [demandLoop, hb, if_true, if_pos hlen]
        cases h with
        | inl heq =>
          subst heq
          exact demandLoop_errors_mono vid cds ds rest idx _ _ _
            (List.mem_append.mpr (Or.inr (List.mem_singleton.mpr rfl)))
        | inr hmem =>
          exact ih idx _ _ loc
            (by rw [Nat.sub_eq_zero_of_le hlen, List.drop_zero]
                exact hmem)
      · push_neg at hlen
        have hsub : ds.length - idx = (ds.length - (idx + 1)) + 1 := by
          omega
        simp only [List.filter_cons, hb, if_true, hsub,
          List.drop_succ_cons] at h
        simp only [demandLoop, hb, if_true, if_neg (not_le.mpr hlen)]
        exact ih (idx + 1) _ _ loc h

/-! Per-route decomposition lemmas. -/

theorem routeBody_cache_mono (cfg : DistConfig) (fmt : ℝ → String)
    (locs : Locations) (cds : List (String × Int)) (acc : RouteAcc)
    (row : SolutionRow) (ds : List Int) (spec : VehicleSpec)
    (k : String) (v : ℝ) (h : pylookup acc.cache k = some v) :
    pylookup (routeBody cfg fmt locs cds acc row ds spec).cache k =
      some v := by
  simp only [routeBody]
  exact rangeLoop_cache_mono cfg locs row.VehicleId _ 0 _ acc.cache k v h

theorem routeBody_errors_mono (cfg : DistConfig) (fmt : ℝ → String)
    (locs : Locations) (cds : List (String × Int)) (acc : RouteAcc)
    (row : SolutionRow) (ds : List Int) (spec : VehicleSpec)
    (e : String) (h : e ∈ acc.errors) :
    e ∈ (routeBody cfg fmt locs cds acc row ds spec).errors := by
  simp only [routeBody]
  apply List.mem_append.mpr
  left
  apply List.mem_append.mpr
  left
  apply demandLoop_errors_mono
  apply List.mem_append.mpr
  left
  apply rangeLoop_errors_mono
  exact List.mem_append.mpr (Or.inl (List.mem_append.mpr (Or.inl h)))

theorem routeBody_visited_mem (cfg : DistConfig) (fmt : ℝ → String)
    (locs : Locations) (cds : List (String × Int)) (acc : RouteAcc)
    (row : SolutionRow) (ds : List Int) (spec : VehicleSpec)
    (x : String) :
    x ∈ (routeBody cfg fmt locs cds acc row ds spec).visited ↔
      x ∈ acc.visited ∨
        x ∈ ((pysplit row.RouteSequence '-').filter
          isClientStop).take ds.length := by
  simp only [routeBody]
  rw [demandLoop_visited_mem]
  rw [Nat.sub_zero]

theorem routeBody_missing_mem (cfg : DistConfig) (fmt : ℝ → String)
    (locs : Locations) (cds : List (String × Int)) (acc : RouteAcc)
    (row : SolutionRow) (ds : List Int) (spec : VehicleSpec)
    (loc : String)
    (h : loc ∈ ((pysplit row.RouteSequence '-').filter
      isClientStop).drop ds.length) :
    missingDemandMsg row.VehicleId loc ∈
      (routeBody cfg fmt locs cds acc row ds spec).errors := by
  simp only [routeBody]
  apply List.mem_append.mpr
  left
  apply List.mem_append.mpr
  left
  apply demandLoop_missing_mem
  rw [Nat.sub_zero]
  exact h

theorem routeBody_range_mem (cfg : DistConfig) (fmt : ℝ → String)
    (locs : Locations) (cds : List (String × Int)) (acc : RouteAcc)
    (row : SolutionRow) (ds : List Int) (spec : VehicleSpec)
    (h : (rangeLoop cfg locs row.VehicleId
        (pysplit row.RouteSequence '-') 0 [] acc.cache).1 >
      (spec.range : ℝ)) :
    rangeMsg row.VehicleId fmt
      ((rangeLoop cfg locs row.VehicleId
        (pysplit row.RouteSequence '-') 0 [] acc.cache).1)
      spec.range ∈
      (routeBody cfg fmt locs cds acc row ds spec).errors := by
  simp only [routeBody]
  rw [rangeLoop_fst_indep cfg locs row.VehicleId
    (pysplit row.RouteSequence '-') 0 _ [] acc.cache]
  rw [if_pos h]
  apply List.mem_append.mpr
  left
  apply List.mem_append.mpr
  left
  apply demandLoop_errors_mono
  exact List.mem_append.mpr (Or.inr (List.mem_singleton.mpr rfl))

theorem processRoute_ok_inv {cfg : DistConfig} {fmt : ℝ → String}
    {locs : Locations} {cds : List (String × Int)}
    {vss : List (Int × VehicleSpec)} {acc : RouteAcc}
    {row : SolutionRow} {acc' : RouteAcc}
    (h : processRoute cfg fmt locs cds vss acc row = .ok acc') :
    ∃ ds n spec,
      parseDemandList (pysplit row.DemandsSatisfied '-') = .ok ds ∧
      pyint (replaceVEH row.VehicleId) = some n ∧
      pylookup vss n = some spec ∧
      acc' = routeBody cfg fmt locs cds acc row ds spec := by
  unfold processRoute at h
  split at h
  next e hp => exact absurd h (by simp)
  next ds hp =>
    split at h
    next hn => exact absurd h (by simp)
    next n hn =>
      split at h
      next hs => exact absurd h (by simp)
      next spec hs =>
        simp only [Except.ok.injEq] at h
        exact ⟨ds, n, spec, hp, hn, hs, h.symm⟩

theorem runRoutes_errors_mono (cfg : DistConfig) (fmt : ℝ → String)
    (locs : Locations) (cds : List (String × Int))
    (vss : List (Int × VehicleSpec)) :
    ∀ (rows : List SolutionRow) (acc acc' : RouteAcc),
      runRoutes cfg fmt locs cds vss rows acc = .ok acc' →
      ∀ e ∈ acc.errors, e ∈ acc'.errors := by
  intro rows
  induction rows with
  | nil =>
    intro acc acc' h e he
    unfold runRoutes at h
    simp only [Except.ok.injEq] at h
    rw [← h]
    exact he
  | cons row rest ih =>
    intro acc acc' h e he
    unfold runRoutes at h
    cases hpr : processRoute cfg fmt locs cds vss acc row with
    | error ex => rw [hpr] at h; exact absurd h (by simp)
    | ok acc1 =>
      rw [hpr] at h
      obtain ⟨ds, n, spec, hp, hn, hs, rfl⟩ := processRoute_ok_inv hpr
      exact ih _ acc' h e
        (routeBody_errors_mono cfg fmt locs cds acc row ds spec e he)

theorem runRoutes_cache_mono (cfg : DistConfig) (fmt : ℝ → String)
    (locs : Locations) (cds : List (String × Int))
    (vss : List (Int × VehicleSpec)) :
    ∀ (rows : List SolutionRow) (acc acc' : RouteAcc),
      runRoutes cfg fmt locs cds vss rows acc = .ok acc' →
      ∀ (k : String) (v : ℝ), pylookup acc.cache k = some v →
        pylookup acc'.cache k = some v := by
  intro rows
  induction rows with
  | nil =>
    intro acc acc' h k v hk
    unfold runRoutes at h
    simp only [Except.ok.injEq] at h
    rw [← h]
    exact hk
  | cons row rest ih =>
    intro acc acc' h k v hk
    unfold runRoutes at h
    cases hpr : processRoute cfg fmt locs cds vss acc row with
    | error ex => rw [hpr] at h; exact absurd h (by simp)
    | ok acc1 =>
      rw [hpr] at h
      obtain ⟨ds, n, spec, hp, hn, hs, rfl⟩ := processRoute_ok_inv hpr
      exact ih _ acc' h k v
        (routeBody_cache_mono cfg fmt locs cds acc row ds spec k v hk)

theorem runRoutes_visited_mem (cfg : DistConfig) (fmt : ℝ → String)
    (locs : Locations) (cds : List (String × Int))
    (vss : List (Int × VehicleSpec)) :
    ∀ (rows : List SolutionRow) (acc acc' : RouteAcc),
      runRoutes cfg fmt locs cds vss rows acc = .ok acc' →
      ∀ x, x ∈ acc'.visited ↔ x ∈ acc.visited ∨
        ∃ row ∈ rows, x ∈ consumedClientStops row := by
  intro rows
  induction rows with
  | nil =>
    intro acc acc' h x
    unfold runRoutes at h
    simp only [Except.ok.injEq] at h
    rw [← h]
    simp
  | cons row rest ih =>
    intro acc acc' h x
    unfold runRoutes at h
    cases hpr : processRoute cfg fmt locs cds vss acc row with
    | error ex => rw [hpr] at h; exact absurd h (by simp)
    | ok acc1 =>
      rw [hpr] at h
      obtain ⟨ds, n, spec, hp, hn, hs, rfl⟩ := processRoute_ok_inv hpr
      rw [ih _ acc' h x, routeBody_visited_mem,
        List.exists_mem_cons_iff]
      have hcons : consumedClientStops row =
          ((pysplit row.RouteSequence '-').filter
            isClientStop).take ds.length := by
        unfold consumedClientStops
        rw [hp]
      rw [hcons]
      tauto

theorem runRoutes_missing_mem (cfg : DistConfig) (fmt : ℝ → String)
    (locs : Locations) (cds : List (String × Int))
    (vss : List (Int × VehicleSpec)) :
    ∀ (rows : List SolutionRow) (acc acc' : RouteAcc),
      runRoutes cfg fmt locs cds vss rows acc = .ok acc' →
      ∀ row ∈ rows, ∀ loc ∈ exhaustedClientStops row,
        missingDemandMsg row.VehicleId loc ∈ acc'.errors := by
  intro rows
  induction rows with
  | nil => intro acc acc' h row hrow; exact absurd hrow (by simp)
  | cons r rest ih =>
    intro acc acc' h row hrow loc hloc
    unfold runRoutes at h
    cases hpr : processRoute cfg fmt locs cds vss acc r with
    | error ex => rw [hpr] at h; exact absurd h (by simp)
    | ok acc1 =>
      rw [hpr] at h
      obtain ⟨ds, n, spec, hp, hn, hs, rfl⟩ := processRoute_ok_inv hpr
      rcases List.mem_cons.mp hrow with rfl | hmem
      · have hex : exhaustedClientStops row =
            ((pysplit row.RouteSequence '-').filter
              isClientStop).drop ds.length := by
          unfold exhaustedClientStops
          rw [hp]
        rw [hex] at hloc
        exact runRoutes_errors_mono cfg fmt locs cds vss rest _ acc' h _
          (routeBody_missing_mem cfg fmt locs cds acc row ds spec loc
            hloc)
      · exact ih _ acc' h row hmem loc hloc

/-- C5: every validation pass that returns invokes the cache
persistence exactly once, at the end, regardless of the feasibility
outcome, and the write is a full snapshot: afterwards the persisted
store equals the entire in-memory cache, and every entry present in the
cache at the start of the pass is still present (the snapshot extends,
never drops, the entries loaded at startup). -/
theorem c5_save_once_full_snapshot (cfg : DistConfig)
    (fmt : ℝ → String) (locs : Locations) (cds : List (String × Int))
    (vss : List (Int × VehicleSpec)) (rows : List SolutionRow)
    (st : VState) (r : VResult) (st' : VState)
    (h : validate_solution cfg fmt locs cds vss rows st = .ok (r, st')) :
    st'.saves = st.saves + 1 ∧ st'.persisted = st'.cache ∧
    ∀ (k : String) (v : ℝ), pylookup st.cache k = some v →
      pylookup st'.cache k = some v := by
  unfold validate_solution at h
  cases hrr : runRoutes cfg fmt locs cds vss rows ⟨[], [], st.cache⟩ with
  | error e => rw [hrr] at h; exact absurd h (by simp)
  | ok acc =>
    rw [hrr] at h
    simp only [Except.ok.injEq, Prod.mk.injEq] at h
    obtain ⟨-, rfl⟩ := h
    refine ⟨rfl, rfl, ?_⟩
    intro k v hk
    exact runRoutes_cache_mono cfg fmt locs cds vss rows _ acc hrr k v hk

/-- Witness for C5 at a pass over no routes starting from a nonempty
loaded cache. -/
theorem c5_witness :
    (VState.mk [("k", (1:ℝ))] [("k", 1)] 1).saves =
      (VState.mk [("k", 1)] [] 0).saves + 1 ∧
    (VState.mk [("k", (1:ℝ))] [("k", 1)] 1).persisted =
      (VState.mk [("k", 1)] [("k", 1)] 1).cache ∧
    (∀ (key : String) (v : ℝ),
      pylookup (VState.mk [("k", (1:ℝ))] [] 0).cache key = some v →
      pylookup (VState.mk [("k", 1)] [("k", 1)] 1).cache key = some v) :=
  c5_save_once_full_snapshot cfgH fmt0 [] [] [] [] ⟨[("k", 1)], [], 0⟩
    ⟨true, []⟩ ⟨[("k", 1)], [("k", 1)], 1⟩ rfl

/-- C2 counterexample: a dataset whose single row parses cleanly but
names vehicle VEH2 while only vehicle 1 has a spec makes
validate_solution raise (a KeyError whose message is the missing key),
so the pass does not run to completion and returns no result. -/
theorem c2_counterexample :
    validate_solution cfgH fmt0 [] [] [(1, ⟨10, 1000⟩)]
      [⟨"VEH2", "CDA", 5, "CDA-C001-CDA", 1, "5"⟩] ⟨[], [], 0⟩ =
    .error "2" := rfl

/-- C2 as amended: for rows that parse and whose vehicle numbers all
resolve in the vehicle-spec mapping, validate_solution raises no
exception, under every distance-method string: rule violations, and
even the unrecognized-method ValueError arising inside the per-pair
distance computation, are accumulated locally, and the pass runs to
completion. -/
theorem c2_no_exception_when_vehicles_resolve (cfg : DistConfig)
    (fmt : ℝ → String) (locs : Locations) (cds : List (String × Int))
    (vss : List (Int × VehicleSpec)) (rows : List SolutionRow)
    (st : VState) (h : ∀ row ∈ rows, rowParseOk vss row) :
    exOk (validate_solution cfg fmt locs cds vss rows st) = true := by
  have hrun : ∀ (rows2 : List SolutionRow) (acc : RouteAcc),
      (∀ row ∈ rows2, rowParseOk vss row) →
      ∃ acc', runRoutes cfg fmt locs cds vss rows2 acc = .ok acc' := by
    intro rows2
    induction rows2 with
    | nil => intro acc _; exact ⟨acc, rfl⟩
    | cons row rest ih =>
      intro acc hall
      obtain ⟨hparse, hveh⟩ := hall row (List.mem_cons_self row rest)
      cases hp : parseDemandList (pysplit row.DemandsSatisfied '-') with
      | error e => rw [hp] at hparse; exact absurd hparse (by simp [exOk])
      | ok ds =>
        cases hn : pyint (replaceVEH row.VehicleId) with
        | none => rw [hn] at hveh; exact absurd hveh (by simp)
        | some n =>
          cases hs : pylookup vss n with
          | none =>
            rw [hn, Option.some_bind, hs] at hveh
            exact absurd hveh (by simp)
          | some spec =>
            obtain ⟨acc', hacc'⟩ :=
              ih (routeBody cfg fmt locs cds acc row ds spec)
                (fun r hr => hall r (List.mem_cons_of_mem row hr))
            refine ⟨acc', ?_⟩
            unfold runRoutes processRoute
            simp only [hp, hn, hs]
            exact hacc'
  obtain ⟨acc, hacc⟩ := hrun rows ⟨[], [], st.cache⟩ h
  unfold validate_solution
  rw [hacc]
  rfl

/-- Witness for C2 at the concrete feasible dataset. -/
theorem c2_witness :
    (∀ row ∈ [rowC6], rowParseOk (buildVehicleSpecs vehiclesC6) row) ∧
    exOk (validate_solution cfgH fmt0 (buildLocations depotsC6
      clientsC6) (buildClientDemands clientsC6)
      (buildVehicleSpecs vehiclesC6) [rowC6] ⟨[], [], 0⟩) = true :=
  ⟨by decide,
    c2_no_exception_when_vehicles_resolve cfgH fmt0
      (buildLocations depotsC6 clientsC6) (buildClientDemands clientsC6)
      (buildVehicleSpecs vehiclesC6) [rowC6] ⟨[], [], 0⟩ (by decide)⟩

/-- C4 counterexample: route CDA-X-Y against a registry knowing only
CDA. The consecutive pair (X, Y) has both endpoints missing, yet the
pass emits only one error for that pair (for the origin X, which is
also reported as destination of the previous pair) and no error naming
Y at all — not one error per missing endpoint. -/
theorem c4_counterexample :
    validate_solution cfgH fmt0 sampleLocs [] [(1, ⟨10, 1000⟩)]
      [⟨"VEH1", "CDA", 0, "CDA-X-Y", 0, "7"⟩] ⟨[], [], 0⟩ =
      .ok (⟨false, [depotMsg "VEH1" "CDA", invalidLocMsg "VEH1" "X",
        invalidLocMsg "VEH1" "X"]⟩, ⟨[], [], 1⟩) ∧
    invalidLocMsg "VEH1" "Y" ∉ [depotMsg "VEH1" "CDA",
      invalidLocMsg "VEH1" "X", invalidLocMsg "VEH1" "X"] := by
  constructor
  · have hc : ¬((0:ℝ) > ((1000:Int):ℝ)) := by norm_num
    have hrun : runRoutes cfgH fmt0 sampleLocs [] [(1, ⟨10, 1000⟩)]
        [⟨"VEH1", "CDA", 0, "CDA-X-Y", 0, "7"⟩] ⟨[], [], []⟩ =
      .ok ⟨(([depotMsg "VEH1" "CDA", invalidLocMsg "VEH1" "X",
          invalidLocMsg "VEH1" "X"] ++
        (if (0:ℝ) > ((1000:Int):ℝ) then
          [rangeMsg "VEH1" fmt0 0 1000] else [])) ++ []) ++ [],
        [], []⟩ := rfl
    rw [if_neg hc] at hrun
    simp only [List.append_nil] at hrun
    unfold validate_solution
    rw [hrun]
    rfl
  · decide

/-- C4 as amended: in the range check, a pair whose origin is missing
from the registry yields exactly one error (naming the origin) and the
pair is skipped without examining its destination; a pair whose origin
is present but destination missing yields exactly one error naming the
destination and the pair is skipped; skipped pairs contribute nothing
to the total or the cache, and the total-vs-range comparison still
runs against the accumulated partial sum. -/
theorem c4_missing_endpoint_skips_pair (cfg : DistConfig)
    (fmt : ℝ → String) (locs : Locations) (cds : List (String × Int))
    (acc : RouteAcc) (row : SolutionRow) (ds : List Int)
    (spec : VehicleSpec) (vid f t : String) (rest : List String)
    (total : ℝ) (errors : List String) (cache : Cache) :
    (pylookup locs (.str f) = none →
      rangeLoop cfg locs vid (f :: t :: rest) total errors cache =
        rangeLoop cfg locs vid (t :: rest) total
          (errors ++ [invalidLocMsg vid f]) cache) ∧
    ((pylookup locs (.str f)).isSome = true →
      pylookup locs (.str t) = none →
      rangeLoop cfg locs vid (f :: t :: rest) total errors cache =
        rangeLoop cfg locs vid (t :: rest) total
          (errors ++ [invalidLocMsg vid t]) cache) ∧
    ((rangeLoop cfg locs row.VehicleId
        (pysplit row.RouteSequence '-') 0 [] acc.cache).1 >
        (spec.range : ℝ) →
      rangeMsg row.VehicleId fmt
        ((rangeLoop cfg locs row.VehicleId
          (pysplit row.RouteSequence '-') 0 [] acc.cache).1)
        spec.range ∈
        (routeBody cfg fmt locs cds acc row ds spec).errors) := by
  refine ⟨?_, ?_, ?_⟩
  · intro hf
    have hf' : (pylookup locs (.str f)).isNone := by rw [hf]; rfl
    simp only [rangeLoop, if_pos hf']
  · intro hf ht
    have hf' : ¬(pylookup locs (.str f)).isNone = true := by
      rw [Option.isNone_iff_eq_none]
      intro hc
      rw [hc] at hf
      exact absurd hf (by simp)
    have ht' : (pylookup locs (.str t)).isNone := by rw [ht]; rfl
    simp only [rangeLoop, if_neg hf', if_pos ht']
  · intro h
    exact routeBody_range_mem cfg fmt locs cds acc row ds spec h

/-- Witness for C4: the first two conclusions at the concrete pair
(X, Y), both unknown to the sample registry, and at (CDA, Y); the third
at a single-stop route against a vehicle with range -1, whose empty
partial total 0 still trips the comparison. -/
theorem c4_witness :
    (pylookup sampleLocs (.str "X") = none ∧
      (pylookup sampleLocs (.str "CDA")).isSome = true ∧
      pylookup sampleLocs (.str "Y") = none ∧
      (rangeLoop cfgH sampleLocs "VEH1"
        (pysplit "CDA" '-') 0 [] ([] : Cache)).1 > (((-1 : Int)) : ℝ)) ∧
    rangeLoop cfgH sampleLocs "VEH1" ["X", "Y"] 0 [] [] =
      rangeLoop cfgH sampleLocs "VEH1" ["Y"] 0
        ([] ++ [invalidLocMsg "VEH1" "X"]) [] ∧
    rangeLoop cfgH sampleLocs "VEH1" ["CDA", "Y"] 0 [] [] =
      rangeLoop cfgH sampleLocs "VEH1" ["Y"] 0
        ([] ++ [invalidLocMsg "VEH1" "Y"]) [] ∧
    rangeMsg "VEH1" fmt0
      ((rangeLoop cfgH sampleLocs "VEH1"
        (pysplit "CDA" '-') 0 [] (RouteAcc.mk [] [] []).cache).1)
      (-1) ∈
      (routeBody cfgH fmt0 sampleLocs [] ⟨[], [], []⟩
        ⟨"VEH1", "CDA", 0, "CDA", 0, "5"⟩ [5] ⟨10, -1⟩).errors := by
  have hgt : (rangeLoop cfgH sampleLocs "VEH1"
      (pysplit "CDA" '-') 0 [] (RouteAcc.mk [] [] []).cache).1 >
      (((-1 : Int)) : ℝ) := by
    have : (rangeLoop cfgH sampleLocs "VEH1"
        (pysplit "CDA" '-') 0 [] (RouteAcc.mk [] [] []).cache).1 =
        (0 : ℝ) := rfl
    rw [this]
    norm_num
  have h := c4_missing_endpoint_skips_pair cfgH fmt0 sampleLocs []
    ⟨[], [], []⟩ ⟨"VEH1", "CDA", 0, "CDA", 0, "5"⟩ [5] ⟨10, -1⟩
    "VEH1" "X" "Y" [] 0 [] []
  have h2 := c4_missing_endpoint_skips_pair cfgH fmt0 sampleLocs []
    ⟨[], [], []⟩ ⟨"VEH1", "CDA", 0, "CDA", 0, "5"⟩ [5] ⟨10, -1⟩
    "VEH1" "CDA" "Y" [] 0 [] []
  exact ⟨⟨rfl, rfl, rfl, hgt⟩, h.1 rfl, h2.2.1 rfl rfl, h.2.2 hgt⟩

/-- C10: a client stop occurring in some route only after the declared
demand list is exhausted is reported with a missing-demand error and is
not added to the process-wide visited set; if it is consumed by no
route at all but is a known client, the global coverage check
additionally reports it as not visited, even though it occurs in a
route sequence. -/
theorem c10_exhausted_client_not_visited (cfg : DistConfig)
    (fmt : ℝ → String) (locs : Locations) (cds : List (String × Int))
    (vss : List (Int × VehicleSpec)) (rows : List SolutionRow)
    (st : VState) (r : VResult) (st' : VState) (row : SolutionRow)
    (loc : String)
    (hval : validate_solution cfg fmt locs cds vss rows st =
      .ok (r, st'))
    (hrow : row ∈ rows)
    (hexh : loc ∈ exhaustedClientStops row)
    (hncons : ∀ row2 ∈ rows, loc ∉ consumedClientStops row2)
    (hcds : loc ∈ cds.map Prod.fst) :
    missingDemandMsg row.VehicleId loc ∈ r.errors ∧
    notVisitedMsg loc ∈ r.errors := by
  unfold validate_solution at hval
  cases hrr : runRoutes cfg fmt locs cds vss rows ⟨[], [], st.cache⟩ with
  | error e => rw [hrr] at hval; exact absurd hval (by simp)
  | ok acc =>
    rw [hrr] at hval
    simp only [Except.ok.injEq, Prod.mk.injEq] at hval
    obtain ⟨hres, -⟩ := hval
    constructor
    · have h1 := runRoutes_missing_mem cfg fmt locs cds vss rows _ acc
        hrr row hrow loc hexh
      rw [← hres]
      exact List.mem_append.mpr (Or.inl h1)
    · have hnv : loc ∉ acc.visited := by
        rw [runRoutes_visited_mem cfg fmt locs cds vss rows _ acc hrr
          loc]
        rintro (habs | ⟨row2, hrow2, hcons⟩)
        · simp at habs
        · exact hncons row2 hrow2 hcons
      rw [← hres]
      apply List.mem_append.mpr
      right
      apply List.mem_map_of_mem
      apply List.mem_filter.mpr
      exact ⟨List.mem_dedup.mpr hcds, by simpa using hnv⟩

/-- Witness for C10: with an empty location registry, route
CDA-C001-C002-CDA and demand list [5], client C002 is both reported
with a missing-demand error and flagged as not visited. -/
theorem c10_witness :
    missingDemandMsg "VEH1" "C002" ∈
      [invalidLocMsg "VEH1" "CDA", invalidLocMsg "VEH1" "C001",
        invalidLocMsg "VEH1" "C002", missingDemandMsg "VEH1" "C002",
        notVisitedMsg "C002"] ∧
    notVisitedMsg "C002" ∈
      [invalidLocMsg "VEH1" "CDA", invalidLocMsg "VEH1" "C001",
        invalidLocMsg "VEH1" "C002", missingDemandMsg "VEH1" "C002",
        notVisitedMsg "C002"] := by
  have hc : ¬((0:ℝ) > ((1000:Int):ℝ)) := by norm_num
  have hrun : runRoutes cfgH fmt0 [] cdsW vssW [rowW] ⟨[], [], []⟩ =
    .ok ⟨(([invalidLocMsg "VEH1" "CDA", invalidLocMsg "VEH1" "C001",
        invalidLocMsg "VEH1" "C002"] ++
      ((if (0:ℝ) > ((1000:Int):ℝ) then
        [rangeMsg "VEH1" fmt0 0 1000] else []) ++
        [missingDemandMsg "VEH1" "C002"])) ++ []) ++ [],
      ["C001"], []⟩ := rfl
  rw [if_neg hc] at hrun
  simp only [List.nil_append, List.append_nil] at hrun
  have hval : validate_solution cfgH fmt0 [] cdsW vssW [rowW]
      ⟨[], [], 0⟩ =
    .ok (⟨false, [invalidLocMsg "VEH1" "CDA",
        invalidLocMsg "VEH1" "C001", invalidLocMsg "VEH1" "C002",
        missingDemandMsg "VEH1" "C002", notVisitedMsg "C002"]⟩,
      ⟨[], [], 1⟩) := by
    unfold validate_solution
    rw [hrun]
    rfl
  exact c10_exhausted_client_not_visited cfgH fmt0 [] cdsW vssW [rowW]
    ⟨[], [], 0⟩ _ _ rowW "C002" hval (List.mem_cons_self rowW [])
    (by decide) (by decide) (by decide)

end

end VRP
